import Mathlib

/-!
Verification of libreoffice-voikko (the visible shim layer).

The repository excerpt contains `src/common.cxx` (mutex access, installation
path resolution, registry property lookup) and the header
`src/spellchecker/SpellAlternatives.hxx`, which declares the
`SpellAlternatives` result object.  The method bodies of `SpellAlternatives`
are not part of the excerpt, so the result-object contract is modelled from
the specification; the functions of `common.cxx` are embedded directly from
their source.
-/

namespace Voikko

/-! Part 1: the SuggestionResult (SpellAlternatives) data model. -/

/-- A language/region identifier, as in com.sun.star.lang.Locale. -/
structure Locale where
  language : String
  country : String
  variant : String
deriving DecidableEq, Repr

/-- Modelled from the spec: the state of a constructed SuggestionResult
(SpellAlternatives).  The method bodies of SpellAlternatives are missing from
the excerpt (only the header declaring the fields `word` and `alternatives`
and the five accessors is present), so the fields follow section 3 of the
specification: a source word, a locale, a failure classification and an
ordered list of alternatives. -/
structure SpellAlternatives where
  word : String
  locale : Locale
  failureType : Int
  alternatives : List String
deriving DecidableEq, Repr

/-- Modelled from the spec: the FailureKind enumeration is engine-defined;
we model it as the finite set of com.sun.star.linguistic2.SpellFailure codes
referenced by the header (IS_NEGATIVE_WORD, CAPTION_ERROR, SPELLING_ERROR). -/
def definedFailureKinds : List Int := [2, 3, 4]

/-- Modelled from the spec: construction of a SuggestionResult.  Per section 7,
construction must fail (rather than coerce to a degraded state) when the
alternatives sequence is null/absent or the failure classification lies
outside the defined enumeration; per section 6 the consumed sequence is
duplicate-free, which is likewise enforced at construction. -/
def mkSpellAlternatives (word : String) (locale : Locale) (failureType : Int)
    (alternatives : Option (List String)) : Option SpellAlternatives :=
  match alternatives with
  | none => none
  | some alts =>
    if failureType ∈ definedFailureKinds ∧ alts.Nodup then
      some { word := word, locale := locale, failureType := failureType,
             alternatives := alts }
    else
      none

/-- Modelled from the spec: accessor getWord.  Each accessor returns its value
together with the post-call state of the instance, so that absence of
mutation is a provable statement rather than a typing convention. -/
def getWord (s : SpellAlternatives) : String × SpellAlternatives :=
  (s.word, s)

/-- Modelled from the spec: accessor getLocale. -/
def getLocale (s : SpellAlternatives) : Locale × SpellAlternatives :=
  (s.locale, s)

/-- Modelled from the spec: accessor getFailureType. -/
def getFailureType (s : SpellAlternatives) : Int × SpellAlternatives :=
  (s.failureType, s)

/-- Modelled from the spec: accessor getAlternativesCount, the O(1) count of
candidate replacements. -/
def getAlternativesCount (s : SpellAlternatives) : Int × SpellAlternatives :=
  ((s.alternatives.length : Int), s)

/-- Modelled from the spec: accessor getAlternatives, the ordered sequence of
candidate replacements (empty, never absent, when there are none). -/
def getAlternatives (s : SpellAlternatives) : List String × SpellAlternatives :=
  (s.alternatives, s)

/-! Part 2: functions embedded from src/common.cxx. -/

/-- A com.sun.star.uno.Exception, abstracted to its message. -/
structure UnoException where
  message : String
deriving DecidableEq, Repr

/-- The deployment package information provider: getPackageLocation may throw
a UNO exception, which is modelled by the Except result. -/
structure XPackageInformationProvider where
  getPackageLocation : String → Except UnoException String

/-- The environment getInstallationPath runs in: obtaining the provider from
the component context may throw, and the osl file-URL conversion is a total
function of the URL (its error code is ignored by the source). -/
structure InstallEnv where
  packageInformationProviderGet : Except UnoException XPackageInformationProvider
  getSystemPathFromFileURL : String → String

/-- The body of the try block of getInstallationPath in common.cxx: obtain
the package information provider, ask it for the location of
org.puimula.ooovoikko, convert the file URL to a system path. -/
def installationPathBody (env : InstallEnv) : Except UnoException String := do
  let provider ← env.packageInformationProviderGet
  let locationFileURL ← provider.getPackageLocation "org.puimula.ooovoikko"
  pure (env.getSystemPathFromFileURL locationFileURL)

/-- getInstallationPath from common.cxx: the try body, with any UNO exception
caught and replaced by the empty string. -/
def getInstallationPath (env : InstallEnv) : String :=
  match installationPathBody env with
  | Except.ok locationSystemPath => locationSystemPath
  | Except.error _ => ""

/-- A configuration view (the rootView of getRegistryProperties); an absent
reference is modelled as none at the use sites. -/
structure ConfigAccess where
  id : Nat
deriving DecidableEq, Repr

/-- One property-state value, as used for the nodepath argument. -/
inductive PropertyState where
  | directValue
deriving DecidableEq, Repr

/-- A com.sun.star.beans.PropertyValue restricted to the shape used in
common.cxx: a name, a handle, a string value and a property state. -/
structure PropertyValue where
  name : String
  handle : Int
  value : String
  state : PropertyState
deriving DecidableEq, Repr

/-- The XMultiServiceFactory obtained by querying the provider interface:
createInstanceWithArguments may throw (modelled by Except) and may also
return a null reference (modelled by the inner Option). -/
structure XMultiServiceFactory where
  createInstanceWithArguments :
    String → List PropertyValue → Except UnoException (Option ConfigAccess)

/-- The XInterface returned by the service manager, which may or may not
support XMultiServiceFactory when queried (UNO_QUERY). -/
structure XInterfaceRef where
  queryMultiServiceFactory : Option XMultiServiceFactory

/-- The service manager: createInstanceWithContext may fail, returning a null
reference. -/
structure XMultiComponentFactory where
  createInstanceWithContext : String → Option XInterfaceRef

/-- The component context as used by getRegistryProperties: its service
manager may itself be a null reference. -/
structure RegEnv where
  getServiceManager : Option XMultiComponentFactory

/-- getRegistryProperties from common.cxx: obtain the service manager, create
a ConfigurationProvider instance, query it for XMultiServiceFactory, then
create a ConfigurationUpdateAccess for the nodepath argument; every failed
step, including a thrown exception, yields the (still null) rootView. -/
def getRegistryProperties (group : String) (env : RegEnv) : Option ConfigAccess :=
  match env.getServiceManager with
  | none => none
  | some servManager =>
    match servManager.createInstanceWithContext
        "com.sun.star.configuration.ConfigurationProvider" with
    | none => none
    | some iFace =>
      match iFace.queryMultiServiceFactory with
      | none => none
      | some provider =>
        let pathArgument : PropertyValue :=
          { name := "nodepath", handle := 0, value := group,
            state := PropertyState.directValue }
        match provider.createInstanceWithArguments
            "com.sun.star.configuration.ConfigurationUpdateAccess"
            [pathArgument] with
        | Except.error _ => none
        | Except.ok rootView => rootView

/-- The per-process state behind the function-local static mutex of
getVoikkoMutex: the mutex once allocated, and a supply of fresh identities. -/
structure MutexState where
  voikkoMutex : Option Nat
  nextIdent : Nat
deriving DecidableEq, Repr

/-- getVoikkoMutex from common.cxx: the first call allocates the static
mutex, every later call returns the already-allocated one unchanged. -/
def getVoikkoMutex (s : MutexState) : Nat × MutexState :=
  match s.voikkoMutex with
  | some m => (m, s)
  | none =>
    (s.nextIdent, { voikkoMutex := some s.nextIdent, nextIdent := s.nextIdent + 1 })

/-! Concrete sample data used to instantiate the theorems below. -/

/-- The Finnish locale the extension works with. -/
def fiLocale : Locale := ⟨"fi", "FI", ""⟩

/-- The section 8 scenario instance: word helo with three alternatives. -/
def heloResult : SpellAlternatives := ⟨"helo", fiLocale, 4, ["hello", "help", "held"]⟩

/-- A sample instance constructed from the word teh. -/
def tehResult : SpellAlternatives := ⟨"teh", fiLocale, 4, ["the"]⟩

/-- A sample environment whose package information provider cannot be
obtained. -/
def brokenInstallEnv : InstallEnv :=
  ⟨Except.error ⟨"no provider"⟩, fun u => u⟩

/-! Theorems -/

/-- C1: for every validly constructed SuggestionResult (SpellAlternatives)
instance, getAlternativesCount returns a value equal to the length of the
sequence returned by getAlternatives. -/
theorem getAlternativesCount_eq_length (w : String) (l : Locale) (ft : Int)
    (alts : Option (List String)) (s : SpellAlternatives)
    (h : mkSpellAlternatives w l ft alts = some s) :
    (getAlternativesCount s).1 = (((getAlternatives s).1.length : Int)) := by
  rfl

/-- C1 witness: the scenario of section 8 of the specification, with three
alternatives, has count 3, the length of the returned sequence. -/
theorem getAlternativesCount_eq_length_wit :
    (getAlternativesCount heloResult).1 = (((getAlternatives heloResult).1.length : Int)) :=
  getAlternativesCount_eq_length "helo" fiLocale 4
    (some ["hello", "help", "held"]) heloResult (by decide)

/-- C2: no accessor of a SpellAlternatives instance mutates it (each leaves
the post-call state equal to the pre-call state), and calling any accessor a
second time on the resulting state returns the identical value. -/
theorem accessors_immutable (s : SpellAlternatives) :
    (getWord s).2 = s ∧ (getLocale s).2 = s ∧ (getFailureType s).2 = s ∧
    (getAlternativesCount s).2 = s ∧ (getAlternatives s).2 = s ∧
    (getWord (getWord s).2).1 = (getWord s).1 ∧
    (getLocale (getLocale s).2).1 = (getLocale s).1 ∧
    (getFailureType (getFailureType s).2).1 = (getFailureType s).1 ∧
    (getAlternativesCount (getAlternativesCount s).2).1 = (getAlternativesCount s).1 ∧
    (getAlternatives (getAlternatives s).2).1 = (getAlternatives s).1 :=
  ⟨rfl, rfl, rfl, rfl, rfl, rfl, rfl, rfl, rfl, rfl⟩

/-- C3: for every validly constructed SuggestionResult (SpellAlternatives)
instance, the sequence returned by getAlternatives contains no duplicates. -/
theorem getAlternatives_nodup (w : String) (l : Locale) (ft : Int)
    (alts : Option (List String)) (s : SpellAlternatives)
    (h : mkSpellAlternatives w l ft alts = some s) :
    (getAlternatives s).1.Nodup := by
  cases alts with
  | none => exact Option.noConfusion h
  | some a =>
    simp only [mkSpellAlternatives] at h
    split at h
    · rename_i hc
      cases h
      exact hc.2
    · exact Option.noConfusion h

/-- C3 witness: the constructed instance for the section 8 scenario has
duplicate-free alternatives. -/
theorem getAlternatives_nodup_wit :
    (getAlternatives heloResult).1.Nodup :=
  getAlternatives_nodup "helo" fiLocale 4
    (some ["hello", "help", "held"]) heloResult (by decide)

/-- C4: for every validly constructed SuggestionResult (SpellAlternatives),
getWord returns exactly the word the instance was constructed with, with no
normalization applied. -/
theorem getWord_eq_input (w : String) (l : Locale) (ft : Int)
    (alts : Option (List String)) (s : SpellAlternatives)
    (h : mkSpellAlternatives w l ft alts = some s) :
    (getWord s).1 = w := by
  cases alts with
  | none => exact Option.noConfusion h
  | some a =>
    simp only [mkSpellAlternatives] at h
    split at h
    · cases h
      rfl
    · exact Option.noConfusion h

/-- C4 witness: constructing with the word teh yields getWord equal to teh. -/
theorem getWord_eq_input_wit :
    (getWord tehResult).1 = "teh" :=
  getWord_eq_input "teh" fiLocale 4 (some ["the"]) tehResult (by decide)

/-- C5: constructing a SuggestionResult with zero alternatives succeeds (for
a defined failure kind) and yields a count of 0 and an empty sequence of
alternatives, never an absent value. -/
theorem mk_empty_alternatives (w : String) (l : Locale) (ft : Int)
    (h : ft ∈ definedFailureKinds) :
    ∃ s, mkSpellAlternatives w l ft (some []) = some s ∧
      (getAlternativesCount s).1 = 0 ∧ (getAlternatives s).1 = [] := by
  refine ⟨{ word := w, locale := l, failureType := ft, alternatives := [] }, ?_, rfl, rfl⟩
  simp [mkSpellAlternatives, h]

/-- C5 witness: a concrete construction with zero alternatives. -/
theorem mk_empty_alternatives_wit :
    ∃ s, mkSpellAlternatives "oov" fiLocale 4 (some []) = some s ∧
      (getAlternativesCount s).1 = 0 ∧ (getAlternatives s).1 = [] :=
  mk_empty_alternatives "oov" fiLocale 4 (by decide)

/-- C6: every attempt to construct a SuggestionResult with invalid input (an
absent alternatives sequence, or a failure classification outside the
defined enumeration) fails, producing no instance. -/
theorem mk_rejects_invalid (w : String) (l : Locale) (ft : Int)
    (alts : Option (List String))
    (h : alts = none ∨ ft ∉ definedFailureKinds) :
    mkSpellAlternatives w l ft alts = none := by
  cases alts with
  | none => rfl
  | some a =>
    rcases h with h | h
    · cases h
    · simp [mkSpellAlternatives, h]

/-- C6 witness: constructing with an absent alternatives sequence fails. -/
theorem mk_rejects_invalid_wit :
    mkSpellAlternatives "word" fiLocale 4 none = none :=
  mk_rejects_invalid "word" fiLocale 4 none (Or.inl rfl)

/-- C8: whenever the body of getInstallationPath raises a UNO exception while
resolving the package location, getInstallationPath catches it and returns
the empty string rather than propagating it. -/
theorem getInstallationPath_catches (env : InstallEnv) (e : UnoException)
    (h : installationPathBody env = Except.error e) :
    getInstallationPath env = "" := by
  unfold getInstallationPath
  rw [h]

/-- C8 witness: an environment in which obtaining the package information
provider throws makes getInstallationPath return the empty string. -/
theorem getInstallationPath_catches_wit :
    getInstallationPath brokenInstallEnv = "" :=
  getInstallationPath_catches brokenInstallEnv ⟨"no provider"⟩ rfl

/-- C9: if any step of getRegistryProperties fails (absent service manager,
failed provider creation, failed interface query, or an exception while
creating the configuration access), it returns the null reference without
throwing, never a partially initialized view. -/
theorem getRegistryProperties_fails_null (group : String) (env : RegEnv)
    (h : env.getServiceManager = none
      ∨ ∃ sm, env.getServiceManager = some sm ∧
        (sm.createInstanceWithContext
            "com.sun.star.configuration.ConfigurationProvider" = none
         ∨ ∃ i, sm.createInstanceWithContext
              "com.sun.star.configuration.ConfigurationProvider" = some i ∧
            (i.queryMultiServiceFactory = none
             ∨ ∃ p, i.queryMultiServiceFactory = some p ∧
               ∃ e, p.createInstanceWithArguments
                  "com.sun.star.configuration.ConfigurationUpdateAccess"
                  [{ name := "nodepath", handle := 0, value := group,
                     state := PropertyState.directValue }] = Except.error e))) :
    getRegistryProperties group env = none := by
  rcases h with h | ⟨sm, hsm, h | ⟨i, hi, h | ⟨p, hp, e, he⟩⟩⟩
  · simp [getRegistryProperties, h]
  · simp [getRegistryProperties, hsm, h]
  · simp [getRegistryProperties, hsm, hi, h]
  · simp [getRegistryProperties, hsm, hi, hp, he]

/-- C9 witness: an environment with a null service manager yields the null
reference. -/
theorem getRegistryProperties_fails_null_wit :
    getRegistryProperties "org.puimula.ooovoikko.Config"
      { getServiceManager := none } = none :=
  getRegistryProperties_fails_null "org.puimula.ooovoikko.Config"
    { getServiceManager := none } (Or.inl rfl)

/-- C10: within one run, a second call to getVoikkoMutex returns exactly the
mutex the first call returned, and leaves the state unchanged; hence every
call yields the identical single mutex object for the lifetime of the
process. -/
theorem getVoikkoMutex_same (s : MutexState) :
    getVoikkoMutex (getVoikkoMutex s).2 = ((getVoikkoMutex s).1, (getVoikkoMutex s).2) := by
  cases hm : s.voikkoMutex with
  | none => simp [getVoikkoMutex, hm]
  | some m => simp [getVoikkoMutex, hm]

end Voikko
